import Mathlib

/-
Verification of `src/python_service/ml_service.py` (a small Flask ML service:
synthetic-data generation, RandomForest training with StandardScaler
standardization, joblib persistence, prediction, grid-search optimization).

Shallow embedding conventions:
- Python floats are embedded as exact rationals `ℚ` (and `ℝ` where the code
  computes a square root, in the scaler).
- The fitted RandomForest `model.predict` (acting on scaled features) and the
  fitted scaler transform used on the serving path are abstracted as plain
  functions stored in the artifact: the claims settled against the serving
  pipeline quantify over every loaded model, so nothing about the forest
  internals is fixed.
- Exceptions caught by the `except Exception` blocks become explicit error
  responses; each Flask route returns an `ApiResponse` carrying the HTTP
  status code and message of the `jsonify` call the code performs.
-/

namespace MLService

/-- Ordered quadruple (temperature, pressure, catalystAmount, reactionTime);
one row of the `X` arrays of `ml_service.py`. -/
structure FeatureVector where
  temperature : ℚ
  pressure : ℚ
  catalystAmount : ℚ
  reactionTime : ℚ
deriving DecidableEq

instance : Inhabited FeatureVector := ⟨⟨0, 0, 0, 0⟩⟩

/-- Fitted regressor artifact (contents of the file `{name}.joblib`):
`predictScaled` is `model.predict` on an already-scaled feature row,
`featureImportances` is `model.feature_importances_`. -/
structure RegressorModel where
  predictScaled : FeatureVector → ℚ
  featureImportances : Fin 4 → ℚ

/-- Fitted scaler artifact (contents of the file `{name}_scaler.joblib`):
`nFeaturesIn` is sklearn `n_features_in_` (4 for every scaler fitted by
`train_model` on the 4-column data) and `transformFn` is the numeric
per-row action of `scaler.transform` on a 4-component row. -/
structure FittedScaler where
  nFeaturesIn : ℕ
  transformFn : FeatureVector → FeatureVector

/-- State of the `models` directory: for each model name, the (parsed)
contents of `{name}.joblib` and of `{name}_scaler.joblib`, when present. -/
structure Store where
  modelFile : String → Option RegressorModel
  scalerFile : String → Option FittedScaler

/-- Store with no artifact files: the state before any training run. -/
def emptyStore : Store := ⟨fun _ => none, fun _ => none⟩

/-- Embedding of `load_model` (ml_service.py lines 78-94): if either of the
two artifact files is missing it logs and returns `(None, None)`; otherwise
it loads and returns both. -/
def load_model (st : Store) (name : String) :
    Option RegressorModel × Option FittedScaler :=
  if (st.modelFile name).isSome ∧ (st.scalerFile name).isSome then
    (st.modelFile name, st.scalerFile name)
  else
    (none, none)

/-- Response of a Flask route: `ok` is a `success: true` JSON payload, `err`
carries the HTTP status code and the message of a `success: false` payload. -/
inductive ApiResponse (α : Type) where
  | ok : α → ApiResponse α
  | err : ℕ → String → ApiResponse α
deriving DecidableEq

/-- Whether a route response is the `success: true` payload. -/
def ApiResponse.success {α : Type} : ApiResponse α → Bool
  | .ok _ => true
  | .err _ _ => false

/-- Message of the sklearn ValueError raised by `scaler.transform` when the
input row has the wrong number of features; the route surfaces `str(e)`
as a generic 500 response. -/
def shapeErrMsg (got expected : ℕ) : String :=
  "X has " ++ toString got ++ " features, but StandardScaler is expecting "
    ++ toString expected ++ " features as input."

/-- Reading the first four entries of the feature list as a row (used only
after the length check has passed, where the list has exactly 4 entries). -/
def toFeatureVector (fs : List ℚ) : FeatureVector :=
  ⟨fs.getD 0 0, fs.getD 1 0, fs.getD 2 0, fs.getD 3 0⟩

/-- Importance dictionary built at ml_service.py lines 157-160: the four
fixed keys zipped with `model.feature_importances_`. -/
def featureImportanceNamed (m : RegressorModel) : List (String × ℚ) :=
  [("温度", m.featureImportances 0), ("圧力", m.featureImportances 1),
   ("触媒量", m.featureImportances 2), ("反応時間", m.featureImportances 3)]

/-- Scaled-then-regressed prediction: `model.predict(scaler.transform(x))`,
the only way predictions are computed on the serving path. -/
def pipelinePredict (model : RegressorModel) (scaler : FittedScaler)
    (x : FeatureVector) : ℚ :=
  model.predictScaled (scaler.transformFn x)

/-- Embedding of the `/api/ml/predict` route (ml_service.py lines 126-173).
The argument is the `features` field of the request body (`none` when the
key is absent). Order of effects follows the code: missing-field check,
`load_model`, then `scaler.transform` whose shape check raises a ValueError
caught by the generic handler when the vector does not have
`n_features_in_` components. -/
def predict (st : Store) (featuresField : Option (List ℚ)) :
    ApiResponse (ℚ × List (String × ℚ)) :=
  match featuresField with
  | none => .err 400 "No features provided"
  | some features =>
    match load_model st "yield_model" with
    | (some model, some scaler) =>
      if features.length = scaler.nFeaturesIn then
        .ok (pipelinePredict model scaler (toFeatureVector features),
             featureImportanceNamed model)
      else
        .err 500 (shapeErrMsg features.length scaler.nFeaturesIn)
    | _ => .err 404 "Model not found. Please train the model first."

/-- Ranges field of an optimization request: a JSON object mapping parameter
names to [lower, upper] pairs, embedded as an association list. -/
def Ranges : Type := List (String × (ℚ × ℚ))

/-- Embedding of `np.linspace(lo, hi, num)` on exact rationals: `num` evenly
spaced values from `lo` to `hi` inclusive, value `i` being
`lo + i * (hi - lo) / (num - 1)`. -/
def linspace (lo hi : ℚ) (num : ℕ) : List ℚ :=
  (List.range num).map
    (fun (i : ℕ) => lo + (i : ℚ) * (hi - lo) / ((num : ℚ) - 1))

/-- Row list produced at ml_service.py lines 201-209 by
`np.array(np.meshgrid(t, p, c, r)).reshape(4, -1).T`: with the default
xy-indexing of `np.meshgrid`, the flattened enumeration varies the SECOND
argument (pressure) outer-most, then temperature, then catalystAmount,
then reactionTime inner-most. -/
def gridCandidates (tVals pVals cVals rVals : List ℚ) : List FeatureVector :=
  pVals.flatMap fun p =>
    tVals.flatMap fun t =>
      cVals.flatMap fun c =>
        rVals.map fun r => ⟨t, p, c, r⟩

/-- Accumulator loop of `np.argmax`: `i` is the index of the head of the
remaining list, `bi` and `bv` the index and value of the best element seen
so far; a strictly larger value replaces the best, so the first occurrence
of the maximum wins. -/
def bestIdx : ℕ → ℕ → ℚ → List ℚ → ℕ
  | _, bi, _, [] => bi
  | i, bi, bv, x :: xs =>
    if bv < x then bestIdx (i + 1) i x xs else bestIdx (i + 1) bi bv xs

/-- Embedding of `np.argmax` on a list of predictions: index of the first
occurrence of the maximum (0 on the empty list, matching the only use on a
nonempty list). -/
def argmaxIdx : List ℚ → ℕ
  | [] => 0
  | x :: xs => bestIdx 1 0 x xs

/-- Grid of candidate rows built by `optimize` from the four looked-up
ranges, with 10 linspace points per parameter. -/
def optGrid (tr pr cr rr : ℚ × ℚ) : List FeatureVector :=
  gridCandidates (linspace tr.1 tr.2 10) (linspace pr.1 pr.2 10)
    (linspace cr.1 cr.2 10) (linspace rr.1 rr.2 10)

/-- Embedding of the `/api/ml/optimize` route (ml_service.py lines 175-238).
The argument is the `ranges` field of the request body. Order of effects
follows the code: missing-field check, `load_model`, the four dictionary
accesses `ranges[key]` (a missing key raises a KeyError caught by the
generic handler; the embedded message drops the Python quoting of the key),
grid construction, `scaler.transform` (whose shape check passes exactly when
the fitted scaler expects 4 features), batch prediction, `np.argmax`. -/
def optimize (st : Store) (rangesField : Option Ranges) :
    ApiResponse (FeatureVector × ℚ) :=
  match rangesField with
  | none => .err 400 "No parameter ranges provided"
  | some ranges =>
    match load_model st "yield_model" with
    | (some model, some scaler) =>
      match List.lookup "温度" ranges, List.lookup "圧力" ranges,
          List.lookup "触媒量" ranges, List.lookup "反応時間" ranges with
      | some tr, some pr, some cr, some rr =>
        if scaler.nFeaturesIn = 4 then
          let grid := optGrid tr pr cr rr
          let yPred := grid.map (pipelinePredict model scaler)
          let k := argmaxIdx yPred
          .ok (grid.getD k default, yPred.getD k 0)
        else
          .err 500 (shapeErrMsg 4 scaler.nFeaturesIn)
      | _, _, _, _ => .err 500 "KeyError"
    | _ => .err 404 "Model not found. Please train the model first."

/-- Embedding of `np.clip(x, lo, hi)` on one value. -/
def clip (x lo hi : ℚ) : ℚ := min (max x lo) hi

/-- Affine maps applied at ml_service.py lines 34-38 to one row of
`np.random.rand(100, 4)`: column 0 to temperature, 1 to pressure, 2 to
catalystAmount, 3 to reactionTime. -/
def sampleFeatures (row : Fin 4 → ℚ) : FeatureVector :=
  ⟨row 0 * 100 + 50, row 1 * 9 + 1, row 2 * 1.9 + 0.1, row 3 * 23 + 1⟩

/-- Yield computed at ml_service.py lines 42-44: the weighted nonlinear
combination divided by 100, rescaled to a percentage, clipped to [0, 100]. -/
def sampleYield (fv : FeatureVector) : ℚ :=
  clip ((0.4 * fv.temperature + 0.3 * fv.pressure ^ 2
      + 0.2 * fv.catalystAmount + 0.1 * fv.reactionTime) / 100 * 100) 0 100

/-- Embedding of `generate_sample_data` (ml_service.py lines 24-46).
`np.random.seed(42)` followed by `np.random.rand(100, 4)` produces a matrix
that is a fixed deterministic function of the seed; the matrix is the
parameter `u` (row index, then column index), with every entry in [0, 1). -/
def generate_sample_data (u : ℕ → Fin 4 → ℚ) : List (FeatureVector × ℚ) :=
  (List.range 100).map fun i =>
    (sampleFeatures (u i), sampleYield (sampleFeatures (u i)))

/-- Test-set size chosen by `train_test_split(..., test_size=0.2)`:
`ceil(0.2 * n)` samples. -/
def testCount (n : ℕ) : ℕ := (n + 4) / 5

/-- Embedding of `train_model` (ml_service.py lines 49-75). The body runs
under `try/except Exception` and returns `None` on any raised error:
`StandardScaler.fit_transform` raises on an empty matrix, and
`train_test_split` raises when feature and target lengths differ or when the
resulting train set would be empty (fewer than 2 samples with
test_size=0.2). Past those checks the fixed-seed scaling, splitting, forest
fit, joblib dump and R2 scoring always complete; they are abstracted as the
deterministic function `fitScore` of the raw data. -/
def train_model (fitScore : List FeatureVector → List ℚ → ℚ)
    (X : List FeatureVector) (y : List ℚ) : Option ℚ :=
  if X.length = 0 then none
  else if y.length ≠ X.length then none
  else if X.length - testCount X.length = 0 then none
  else some (fitScore X y)

/-- Embedding of the `/api/ml/train` route body after data generation
(ml_service.py lines 107-118): a `None` score from `train_model` becomes the
generic 500 failure response, any score becomes the success response. -/
def trainRoute (fitScore : List FeatureVector → List ℚ → ℚ)
    (X : List FeatureVector) (y : List ℚ) : ApiResponse ℚ :=
  match train_model fitScore X y with
  | some s => .ok s
  | none => .err 500 "训练失败"

/-- Arithmetic mean of one feature column, as computed by
`StandardScaler.fit`. -/
def colMean (xs : List ℚ) : ℚ := xs.sum / (xs.length : ℚ)

/-- Population variance (ddof = 0) of one feature column, as computed by
`StandardScaler.fit`. -/
def colVar (xs : List ℚ) : ℚ :=
  (xs.map fun x => (x - colMean xs) ^ 2).sum / (xs.length : ℚ)

/-- Extraction of one feature column from the fit matrix. -/
def columnOf (rows : List FeatureVector) (sel : FeatureVector → ℚ) : List ℚ :=
  rows.map sel

/-- Embedding of sklearn `_handle_zeros_in_scale`: a zero per-feature scale
is replaced by 1 so that the division in `transform` is always defined. -/
noncomputable def handleZerosInScale (s : ℝ) : ℝ := if s = 0 then 1 else s

/-- Per-feature scale stored by `StandardScaler.fit`: the standard deviation
(square root of the population variance), with 0 replaced by 1. -/
noncomputable def columnScale (xs : List ℚ) : ℝ :=
  handleZerosInScale (Real.sqrt (colVar xs))

/-- Numeric action of `StandardScaler.transform` on one component of one
input row, for the scaler fitted on the column `xs`. -/
noncomputable def transformColumn (xs : List ℚ) (x : ℚ) : ℝ :=
  ((x : ℝ) - (colMean xs : ℝ)) / columnScale xs

/-- Version tags of the two artifact files on disk: which training run wrote
the current `yield_model.joblib` and which wrote the current
`yield_model_scaler.joblib`. -/
structure StoredFiles where
  modelVersion : ℕ
  scalerVersion : ℕ
deriving DecidableEq

/-- Effect of `joblib.dump(model, model_path)` (ml_service.py line 66) by
training run `v`. -/
def dumpModel (v : ℕ) (s : StoredFiles) : StoredFiles :=
  { s with modelVersion := v }

/-- Effect of `joblib.dump(scaler, scaler_path)` (ml_service.py line 67) by
training run `v`. -/
def dumpScaler (v : ℕ) (s : StoredFiles) : StoredFiles :=
  { s with scalerVersion := v }

/-- The save performed by `train_model` is the sequence of the two dumps, in
source order: the model file is written first, then the scaler file. There
is no lock, rename trick or combined write around them. -/
def saveSteps (v : ℕ) : List (StoredFiles → StoredFiles) :=
  [dumpModel v, dumpScaler v]

/-- What a concurrent reader observes when its load lands after the first
`k` of the two dump steps of training run `v` (k = 0: before the save,
k = 1: between the two dumps, k = 2: after the save). -/
def observeDuringSave (init : StoredFiles) (v : ℕ) (k : ℕ) : StoredFiles :=
  ((saveSteps v).take k).foldl (fun s f => f s) init

/-- A reader sees a matched artifact pair when both files were written by
the same training run. -/
def matchedPair (s : StoredFiles) : Prop := s.modelVersion = s.scalerVersion

instance (s : StoredFiles) : Decidable (matchedPair s) := by
  unfold matchedPair; infer_instance

/-- Modelled from the spec: the enumeration order named by the claim about
the optimizer tie-break, with temperature varying outer-most and
reactionTime inner-most (the code instead produces the `gridCandidates`
order, with pressure outer-most). Defined only to be compared with the
enumeration the code performs. -/
def gridSpecOrder (tVals pVals cVals rVals : List ℚ) : List FeatureVector :=
  tVals.flatMap fun t =>
    pVals.flatMap fun p =>
      cVals.flatMap fun c =>
        rVals.map fun r => ⟨t, p, c, r⟩

/-- Concrete loaded regressor predicting 0 everywhere, used to instantiate
universally quantified statements about the serving routes. -/
def constModel : RegressorModel := ⟨fun _ => 0, fun _ => 0⟩

/-- Concrete fitted scaler expecting 4 features and transforming a row to
itself, as a concrete instantiation of a loaded scaler artifact. -/
def idScaler : FittedScaler := ⟨4, fun x => x⟩

/-- Store holding the constant model and the identity scaler under every
name: the state after a successful training run, instantiated concretely. -/
def readyStore : Store := ⟨fun _ => some constModel, fun _ => some idScaler⟩

/-- Prediction function with a tie: value 1 exactly at the two rows
(1, 0, 0, 0) and (0, 1, 0, 0), value 0 elsewhere. Both rows are grid points
of the ranges [0, 9] with 10 linspace points, so the optimizer must break
the tie by enumeration order. -/
def tieF (x : FeatureVector) : ℚ :=
  if (x.temperature = 1 ∧ x.pressure = 0 ∧ x.catalystAmount = 0
        ∧ x.reactionTime = 0)
      ∨ (x.temperature = 0 ∧ x.pressure = 1 ∧ x.catalystAmount = 0
        ∧ x.reactionTime = 0)
  then 1 else 0

/-- Loaded regressor whose scaled-feature prediction is `tieF`. -/
def tieModel : RegressorModel := ⟨tieF, fun _ => 0⟩

/-- Store holding `tieModel` with the identity scaler. -/
def tieStore : Store := ⟨fun _ => some tieModel, fun _ => some idScaler⟩

/-- Request ranges mapping every parameter to [0, 9], whose 10-point
linspace grids are exactly the integers 0..9. -/
def unitRanges : Ranges :=
  [("温度", (0, 9)), ("圧力", (0, 9)), ("触媒量", (0, 9)), ("反応時間", (0, 9))]

/-- Request ranges whose temperature range has lower bound 9 strictly above
its upper bound 0, the other parameters fixed at [0, 0]. -/
def invertedRanges : Ranges :=
  [("温度", (9, 0)), ("圧力", (0, 0)), ("触媒量", (0, 0)), ("反応時間", (0, 0))]

/-- Concrete instantiation of the abstracted fixed-seed fit-and-score
pipeline of `train_model`, returning score 0. -/
def zeroFit : List FeatureVector → List ℚ → ℚ := fun _ _ => 0

/-- Some concrete feature row. -/
def fv0 : FeatureVector := ⟨100, 5, 1, 12⟩

/-- Another concrete feature row. -/
def fv1 : FeatureVector := ⟨60, 2, 1, 3⟩

/-- Concrete random stream with every draw equal to one half, a valid
instantiation of the seeded `np.random.rand` output. -/
def halfStream : ℕ → Fin 4 → ℚ := fun _ _ => 1 / 2

/-- Concrete fit set of two rows whose temperature column is constantly 5
while the pressure column varies. -/
def constTempRows : List FeatureVector := [⟨5, 1, 0, 0⟩, ⟨5, 2, 0, 0⟩]

/-- Request ranges holding only the temperature key: the other three
required parameter keys are missing. -/
def tempOnlyRanges : Ranges := [("温度", (0, 9))]

/-- Candidate list the code enumerates for the [0, 9] ranges (10 linspace
points per parameter, pressure varying outer-most). -/
def codeGrid : List FeatureVector := optGrid (0, 9) (0, 9) (0, 9) (0, 9)

/-- Candidate list in the enumeration order the claim describes
(temperature outer-most, reactionTime inner-most) for the same ranges. -/
def specGrid : List FeatureVector :=
  gridSpecOrder (linspace 0 9 10) (linspace 0 9 10) (linspace 0 9 10)
    (linspace 0 9 10)

/-- Invariant-carrying description of the `np.argmax` accumulator loop: if
`bv` is the value at index `bi` of the prefix already scanned, is an upper
bound of that prefix and strictly above everything before `bi`, then the
returned index points at the first occurrence of the maximum of the whole
list. -/
theorem bestIdx_spec (xs : List ℚ) :
    ∀ (pre : List ℚ) (bi : ℕ) (bv : ℚ),
      bi < pre.length →
      (pre ++ xs).getD bi 0 = bv →
      (∀ j, j < pre.length → (pre ++ xs).getD j 0 ≤ bv) →
      (∀ j, j < bi → (pre ++ xs).getD j 0 < bv) →
      bestIdx pre.length bi bv xs < (pre ++ xs).length ∧
      (∀ j, j < (pre ++ xs).length →
        (pre ++ xs).getD j 0 ≤ (pre ++ xs).getD (bestIdx pre.length bi bv xs) 0) ∧
      (∀ j, j < bestIdx pre.length bi bv xs →
        (pre ++ xs).getD j 0 < (pre ++ xs).getD (bestIdx pre.length bi bv xs) 0) := by
  induction xs with
  | nil =>
    intro pre bi bv hbi hval hle hlt
    simp only [bestIdx, List.append_nil] at *
    exact ⟨hbi, fun j hj => hval ▸ hle j hj, fun j hj => hval ▸ hlt j hj⟩
  | cons x xs ih =>
    intro pre bi bv hbi hval hle hlt
    have hx : pre ++ x :: xs = (pre ++ [x]) ++ xs := by simp
    have hgetx : (pre ++ x :: xs).getD pre.length 0 = x := by
      rw [List.getD_append_right _ _ _ _ (le_refl _)]
      simp
    have hlen1 : (pre ++ [x]).length = pre.length + 1 := by simp
    by_cases hcmp : bv < x
    · have hstep : bestIdx pre.length bi bv (x :: xs)
          = bestIdx (pre.length + 1) pre.length x xs := by
        simp [bestIdx, hcmp]
      have h2 := ih (pre ++ [x]) pre.length x
        (by simp)
        (by rw [← hx]; exact hgetx)
        (by
          intro j hj
          rw [← hx]
          rw [hlen1] at hj
          rcases Nat.lt_or_ge j pre.length with h | h
          · exact le_of_lt (lt_of_le_of_lt (hle j h) hcmp)
          · have : j = pre.length := by omega
            rw [this, hgetx])
        (by
          intro j hj
          rw [← hx]
          exact lt_of_le_of_lt (hle j hj) hcmp)
      rw [hlen1] at h2
      rw [← hx] at h2
      rw [hstep]
      exact h2
    · have hstep : bestIdx pre.length bi bv (x :: xs)
          = bestIdx (pre.length + 1) bi bv xs := by
        simp [bestIdx, hcmp]
      have h2 := ih (pre ++ [x]) bi bv
        (by rw [hlen1]; omega)
        (by rw [← hx]; exact hval)
        (by
          intro j hj
          rw [← hx]
          rw [hlen1] at hj
          rcases Nat.lt_or_ge j pre.length with h | h
          · exact hle j h
          · have : j = pre.length := by omega
            rw [this, hgetx]
            exact le_of_not_lt hcmp)
        (by
          intro j hj
          rw [← hx]
          exact hlt j hj)
      rw [hlen1] at h2
      rw [← hx] at h2
      rw [hstep]
      exact h2

/-- Specification of `argmaxIdx` on a nonempty list: it is an in-range index
of a maximum value, and everything strictly before it is strictly below the
maximum (first occurrence, exactly the tie-break of `np.argmax`). -/
theorem argmaxIdx_spec (l : List ℚ) (h : l ≠ []) :
    argmaxIdx l < l.length ∧
    (∀ j, j < l.length → l.getD j 0 ≤ l.getD (argmaxIdx l) 0) ∧
    (∀ j, j < argmaxIdx l → l.getD j 0 < l.getD (argmaxIdx l) 0) := by
  match l, h with
  | x :: xs, _ =>
    have h2 := bestIdx_spec xs [x] 0 x
      (by simp)
      (by simp)
      (by intro j hj; simp at hj; simp [hj])
      (by intro j hj; omega)
    simpa [argmaxIdx] using h2

/-- Uniqueness direction of the argmax specification: an in-range index that
attains an upper bound of the list and strictly dominates every earlier
entry is THE index `argmaxIdx` returns. -/
theorem argmaxIdx_eq_of (l : List ℚ) (k : ℕ) (hk : k < l.length)
    (hmax : ∀ j, j < l.length → l.getD j 0 ≤ l.getD k 0)
    (hfirst : ∀ j, j < k → l.getD j 0 < l.getD k 0) :
    argmaxIdx l = k := by
  have hne : l ≠ [] := by
    cases l
    · simp at hk
    · simp
  obtain ⟨h1, h2, h3⟩ := argmaxIdx_spec l hne
  by_contra hne2
  rcases Nat.lt_or_ge (argmaxIdx l) k with h | h
  · exact absurd (h2 k hk) (not_le.mpr (hfirst _ h))
  · have hlt : k < argmaxIdx l := by omega
    exact absurd (hmax _ h1) (not_le.mpr (h3 k hlt))

/-- Length of a flatMap whose pieces all have the same length. -/
theorem length_flatMap_const {α β : Type} (l : List α) (f : α → List β)
    (n : ℕ) (h : ∀ a ∈ l, (f a).length = n) :
    (l.flatMap f).length = l.length * n := by
  induction l with
  | nil => simp
  | cons a t ih =>
    simp only [List.flatMap_cons, List.length_append, List.length_cons]
    rw [h a (List.mem_cons_self a t),
      ih (fun b hb => h b (List.mem_cons_of_mem a hb))]
    ring

/-- Length of a linspace call. -/
theorem linspace_length (lo hi : ℚ) (num : ℕ) :
    (linspace lo hi num).length = num := by
  unfold linspace
  rw [List.length_map, List.length_range]

/-- Closed form of the entries of a 10-point linspace. -/
theorem linspace_getD (lo hi : ℚ) (i : ℕ) (h : i < 10) :
    (linspace lo hi 10).getD i 0 = lo + (i : ℚ) * (hi - lo) / 9 := by
  rw [List.getD_eq_getElem _ _ (by simpa [linspace_length] using h)]
  unfold linspace
  rw [List.getElem_map, List.getElem_range]
  norm_num

/-- Membership in a 10-point linspace is being one of its 10 entries. -/
theorem mem_linspace (lo hi x : ℚ) :
    x ∈ linspace lo hi 10 ↔
      ∃ i : ℕ, i < 10 ∧ x = lo + (i : ℚ) * (hi - lo) / 9 := by
  unfold linspace
  rw [List.mem_map]
  constructor
  · rintro ⟨i, hi, rfl⟩
    rw [List.mem_range] at hi
    exact ⟨i, hi, by norm_num⟩
  · rintro ⟨i, hi, rfl⟩
    exact ⟨i, List.mem_range.mpr hi, by norm_num⟩

/-- Every entry of an increasing-range 10-point linspace stays between the
two bounds inclusive. -/
theorem linspace_bounds (lo hi : ℚ) (h : lo ≤ hi) (x : ℚ)
    (hx : x ∈ linspace lo hi 10) : lo ≤ x ∧ x ≤ hi := by
  rw [mem_linspace] at hx
  obtain ⟨i, hi10, rfl⟩ := hx
  have h0 : (0 : ℚ) ≤ (i : ℚ) := Nat.cast_nonneg i
  have h9 : (i : ℚ) ≤ 9 := by
    have : (i : ℚ) ≤ (9 : ℕ) := Nat.cast_le.mpr (by omega)
    simpa using this
  have hd : (0 : ℚ) ≤ hi - lo := by linarith
  constructor
  · have : (0 : ℚ) ≤ (i : ℚ) * (hi - lo) / 9 := by positivity
    linarith
  · have hstep : (i : ℚ) * (hi - lo) / 9 ≤ hi - lo := by
      rw [div_le_iff₀ (by norm_num : (0 : ℚ) < 9)]
      nlinarith
    linarith

/-- Length of the candidate grid: the product of the per-parameter list
lengths. -/
theorem gridCandidates_length (tV pV cV rV : List ℚ) :
    (gridCandidates tV pV cV rV).length
      = pV.length * (tV.length * (cV.length * rV.length)) := by
  unfold gridCandidates
  rw [length_flatMap_const _ _ (tV.length * (cV.length * rV.length))]
  intro p _
  rw [length_flatMap_const _ _ (cV.length * rV.length)]
  intro t _
  rw [length_flatMap_const _ _ rV.length]
  intro c _
  simp

/-- Entry of a mapped prediction list in terms of the underlying candidate
row. -/
theorem getD_map_at (f : FeatureVector → ℚ) (l : List FeatureVector)
    (j : ℕ) (h : j < l.length) :
    (l.map f).getD j 0 = f (l.getD j default) := by
  rw [List.getD_eq_getElem _ _ (by simpa using h),
    List.getD_eq_getElem _ _ h, List.getElem_map]

/-- Length of the grid built by optimize: 10 to the fourth. -/
theorem optGrid_length (tr pr cr rr : ℚ × ℚ) :
    (optGrid tr pr cr rr).length = 10000 := by
  unfold optGrid
  rw [gridCandidates_length]
  simp [linspace_length]

/-- The optimize grid is never empty. -/
theorem optGrid_ne_nil (tr pr cr rr : ℚ × ℚ) :
    optGrid tr pr cr rr ≠ [] := by
  intro h
  have := optGrid_length tr pr cr rr
  rw [h] at this
  simp at this

/-- Unfolding of the success path of `optimize`: with both artifacts
present, the four keys found and a 4-feature scaler, the route returns the
grid row at the argmax of the batch predictions, with its prediction. -/
theorem optimize_eq (st : Store) (model : RegressorModel)
    (scaler : FittedScaler)
    (hm : st.modelFile "yield_model" = some model)
    (hs : st.scalerFile "yield_model" = some scaler)
    (hn : scaler.nFeaturesIn = 4)
    (ranges : Ranges) (tr pr cr rr : ℚ × ℚ)
    (h1 : List.lookup "温度" ranges = some tr)
    (h2 : List.lookup "圧力" ranges = some pr)
    (h3 : List.lookup "触媒量" ranges = some cr)
    (h4 : List.lookup "反応時間" ranges = some rr) :
    optimize st (some ranges) =
      .ok ((optGrid tr pr cr rr).getD
            (argmaxIdx ((optGrid tr pr cr rr).map
              (pipelinePredict model scaler))) default,
          ((optGrid tr pr cr rr).map (pipelinePredict model scaler)).getD
            (argmaxIdx ((optGrid tr pr cr rr).map
              (pipelinePredict model scaler))) 0) := by
  unfold optimize load_model
  rw [hm, hs]
  simp [h1, h2, h3, h4, hn]

/-- Membership in the candidate grid is exactly component-wise membership in
the four value lists: the grid is the full Cartesian product. -/
theorem mem_gridCandidates (tV pV cV rV : List ℚ) (x : FeatureVector) :
    x ∈ gridCandidates tV pV cV rV ↔
      x.temperature ∈ tV ∧ x.pressure ∈ pV
        ∧ x.catalystAmount ∈ cV ∧ x.reactionTime ∈ rV := by
  cases x with
  | mk t p c r =>
    simp only [gridCandidates, List.mem_flatMap, List.mem_map]
    constructor
    · rintro ⟨p2, hp2, t2, ht2, c2, hc2, r2, hr2, heq⟩
      cases heq
      exact ⟨ht2, hp2, hc2, hr2⟩
    · rintro ⟨ht, hp, hc, hr⟩
      exact ⟨p, hp, t, ht, c, hc, r, hr, rfl⟩

/-- Membership in the grid optimize builds from the four ranges. -/
theorem mem_optGrid (tr pr cr rr : ℚ × ℚ) (x : FeatureVector) :
    x ∈ optGrid tr pr cr rr ↔
      x.temperature ∈ linspace tr.1 tr.2 10
        ∧ x.pressure ∈ linspace pr.1 pr.2 10
        ∧ x.catalystAmount ∈ linspace cr.1 cr.2 10
        ∧ x.reactionTime ∈ linspace rr.1 rr.2 10 := by
  unfold optGrid
  exact mem_gridCandidates _ _ _ _ _

/-- Claim C1 (amended): for every loaded model and every optimization
request holding all four parameter keys, `optimize` returns an evaluated
grid candidate whose predicted yield is maximal among all evaluated
candidates (the returned prediction is greater than or equal to the
prediction at every evaluated grid point), ties broken by first occurrence
in the fixed enumeration order the code actually produces, in which
PRESSURE varies outer-most, then temperature, then catalystAmount, with
reactionTime inner-most. -/
theorem optimize_selects_first_argmax (st : Store) (model : RegressorModel)
    (scaler : FittedScaler)
    (hm : st.modelFile "yield_model" = some model)
    (hs : st.scalerFile "yield_model" = some scaler)
    (hn : scaler.nFeaturesIn = 4)
    (ranges : Ranges) (tr pr cr rr : ℚ × ℚ)
    (h1 : List.lookup "温度" ranges = some tr)
    (h2 : List.lookup "圧力" ranges = some pr)
    (h3 : List.lookup "触媒量" ranges = some cr)
    (h4 : List.lookup "反応時間" ranges = some rr) :
    ∃ k : ℕ,
      k < (optGrid tr pr cr rr).length ∧
      optimize st (some ranges)
        = .ok ((optGrid tr pr cr rr).getD k default,
            pipelinePredict model scaler ((optGrid tr pr cr rr).getD k default)) ∧
      (∀ x ∈ optGrid tr pr cr rr,
        pipelinePredict model scaler x
          ≤ pipelinePredict model scaler ((optGrid tr pr cr rr).getD k default)) ∧
      (∀ j, j < k →
        pipelinePredict model scaler ((optGrid tr pr cr rr).getD j default)
          < pipelinePredict model scaler ((optGrid tr pr cr rr).getD k default)) := by
  set grid := optGrid tr pr cr rr with hgrid
  set yPred := grid.map (pipelinePredict model scaler) with hyPred
  have hlen : yPred.length = grid.length := by
    rw [hyPred, List.length_map]
  have hne : yPred ≠ [] := by
    intro h
    have h0 : yPred.length = 0 := by rw [h]; rfl
    rw [hlen, hgrid, optGrid_length] at h0
    simp at h0
  obtain ⟨hk, hmax, hfirst⟩ := argmaxIdx_spec yPred hne
  refine ⟨argmaxIdx yPred, by omega, ?_, ?_, ?_⟩
  · have heq := optimize_eq st model scaler hm hs hn ranges tr pr cr rr h1 h2 h3 h4
    rw [heq]
    rw [← hgrid, ← hyPred]
    congr 2
    exact getD_map_at _ _ _ (by omega)
  · intro x hx
    obtain ⟨n, hn2, hx2⟩ := List.mem_iff_getElem.mp hx
    have hx3 : grid.getD n default = x := by
      rw [List.getD_eq_getElem _ _ hn2, hx2]
    have h5 := hmax n (by omega)
    rw [getD_map_at _ _ _ hn2, getD_map_at _ _ _ (by omega), hx3] at h5
    exact h5
  · intro j hj
    have h5 := hfirst j hj
    rw [getD_map_at _ _ _ (by omega), getD_map_at _ _ _ (by omega)] at h5
    exact h5

/-- Witness for C1: the theorem instantiated at the concrete tie store and
the [0, 9] ranges. -/
theorem optimize_selects_first_argmax_witness :
    ∃ k : ℕ,
      k < (optGrid (0, 9) (0, 9) (0, 9) (0, 9)).length ∧
      optimize tieStore (some unitRanges)
        = .ok ((optGrid (0, 9) (0, 9) (0, 9) (0, 9)).getD k default,
            pipelinePredict tieModel idScaler
              ((optGrid (0, 9) (0, 9) (0, 9) (0, 9)).getD k default)) ∧
      (∀ x ∈ optGrid (0, 9) (0, 9) (0, 9) (0, 9),
        pipelinePredict tieModel idScaler x
          ≤ pipelinePredict tieModel idScaler
              ((optGrid (0, 9) (0, 9) (0, 9) (0, 9)).getD k default)) ∧
      (∀ j, j < k →
        pipelinePredict tieModel idScaler
            ((optGrid (0, 9) (0, 9) (0, 9) (0, 9)).getD j default)
          < pipelinePredict tieModel idScaler
              ((optGrid (0, 9) (0, 9) (0, 9) (0, 9)).getD k default)) :=
  optimize_selects_first_argmax tieStore tieModel idScaler rfl rfl rfl
    unitRanges (0, 9) (0, 9) (0, 9) (0, 9) (by decide) (by decide) (by decide)
    (by decide)

/-- Claim C2 (confirmed): with lower bound at most upper bound in each of
the 4 parameter ranges and 10 grid points, optimize builds per parameter an
evenly spaced 10-value sequence from lower to upper inclusive, forms the
full Cartesian product of 10000 candidate rows, and every candidate lies
within the supplied per-parameter closed interval. -/
theorem optimize_grid_full_product_within_bounds
    (tlo thi plo phi clo chi rlo rhi : ℚ)
    (ht : tlo ≤ thi) (hp : plo ≤ phi) (hc : clo ≤ chi) (hr : rlo ≤ rhi) :
    (∀ lo hi : ℚ,
      (linspace lo hi 10).length = 10 ∧
      (linspace lo hi 10).getD 0 0 = lo ∧
      (linspace lo hi 10).getD 9 0 = hi ∧
      (∀ i : ℕ, i + 1 < 10 →
        (linspace lo hi 10).getD (i + 1) 0 - (linspace lo hi 10).getD i 0
          = (hi - lo) / 9)) ∧
    (optGrid (tlo, thi) (plo, phi) (clo, chi) (rlo, rhi)).length = 10000 ∧
    (∀ a ∈ linspace tlo thi 10, ∀ b ∈ linspace plo phi 10,
      ∀ c ∈ linspace clo chi 10, ∀ d ∈ linspace rlo rhi 10,
      (⟨a, b, c, d⟩ : FeatureVector)
        ∈ optGrid (tlo, thi) (plo, phi) (clo, chi) (rlo, rhi)) ∧
    (∀ x ∈ optGrid (tlo, thi) (plo, phi) (clo, chi) (rlo, rhi),
      tlo ≤ x.temperature ∧ x.temperature ≤ thi ∧
      plo ≤ x.pressure ∧ x.pressure ≤ phi ∧
      clo ≤ x.catalystAmount ∧ x.catalystAmount ≤ chi ∧
      rlo ≤ x.reactionTime ∧ x.reactionTime ≤ rhi) := by
  refine ⟨?_, optGrid_length _ _ _ _, ?_, ?_⟩
  · intro lo hi
    refine ⟨linspace_length lo hi 10, ?_, ?_, ?_⟩
    · rw [linspace_getD lo hi 0 (by norm_num)]
      norm_num
    · rw [linspace_getD lo hi 9 (by norm_num)]
      ring
    · intro i hi2
      rw [linspace_getD lo hi (i + 1) hi2, linspace_getD lo hi i (by omega)]
      push_cast
      ring
  · intro a ha b hb c hc2 d hd
    exact (mem_optGrid _ _ _ _ _).mpr ⟨ha, hb, hc2, hd⟩
  · intro x hx
    rw [mem_optGrid] at hx
    obtain ⟨h1, h2, h3, h4⟩ := hx
    obtain ⟨b1, b2⟩ := linspace_bounds tlo thi ht _ h1
    obtain ⟨b3, b4⟩ := linspace_bounds plo phi hp _ h2
    obtain ⟨b5, b6⟩ := linspace_bounds clo chi hc _ h3
    obtain ⟨b7, b8⟩ := linspace_bounds rlo rhi hr _ h4
    exact ⟨b1, b2, b3, b4, b5, b6, b7, b8⟩

/-- Witness for C2: the theorem instantiated at the ranges [0, 9] for every
parameter. -/
theorem optimize_grid_full_product_within_bounds_witness :
    (∀ lo hi : ℚ,
      (linspace lo hi 10).length = 10 ∧
      (linspace lo hi 10).getD 0 0 = lo ∧
      (linspace lo hi 10).getD 9 0 = hi ∧
      (∀ i : ℕ, i + 1 < 10 →
        (linspace lo hi 10).getD (i + 1) 0 - (linspace lo hi 10).getD i 0
          = (hi - lo) / 9)) ∧
    (optGrid (0, 9) (0, 9) (0, 9) (0, 9)).length = 10000 ∧
    (∀ a ∈ linspace 0 9 10, ∀ b ∈ linspace 0 9 10,
      ∀ c ∈ linspace 0 9 10, ∀ d ∈ linspace 0 9 10,
      (⟨a, b, c, d⟩ : FeatureVector)
        ∈ optGrid (0, 9) (0, 9) (0, 9) (0, 9)) ∧
    (∀ x ∈ optGrid (0, 9) (0, 9) (0, 9) (0, 9),
      (0 : ℚ) ≤ x.temperature ∧ x.temperature ≤ 9 ∧
      (0 : ℚ) ≤ x.pressure ∧ x.pressure ≤ 9 ∧
      (0 : ℚ) ≤ x.catalystAmount ∧ x.catalystAmount ≤ 9 ∧
      (0 : ℚ) ≤ x.reactionTime ∧ x.reactionTime ≤ 9) :=
  optimize_grid_full_product_within_bounds 0 9 0 9 0 9 0 9
    (by norm_num) (by norm_num) (by norm_num) (by norm_num)

/-- The tie prediction function never exceeds 1. -/
theorem tieF_le_one (x : FeatureVector) : tieF x ≤ 1 := by
  unfold tieF
  split_ifs <;> norm_num

/-- Length of the claim-order enumeration. -/
theorem gridSpecOrder_length (tV pV cV rV : List ℚ) :
    (gridSpecOrder tV pV cV rV).length
      = tV.length * (pV.length * (cV.length * rV.length)) := by
  unfold gridSpecOrder
  rw [length_flatMap_const _ _ (pV.length * (cV.length * rV.length))]
  intro t _
  rw [length_flatMap_const _ _ (cV.length * rV.length)]
  intro p _
  rw [length_flatMap_const _ _ rV.length]
  intro c _
  simp

/-- Length of the concrete code-order grid. -/
theorem codeGrid_length : codeGrid.length = 10000 := by
  unfold codeGrid
  rw [optGrid_length]

/-- Length of the concrete claim-order grid. -/
theorem specGrid_length : specGrid.length = 10000 := by
  unfold specGrid
  rw [gridSpecOrder_length]
  simp [linspace_length]

set_option maxRecDepth 4000 in
/-- Element 100 of the code-order grid: pressure block 0, temperature index
1, so the row (1, 0, 0, 0). -/
theorem codeGrid_getD_100 : codeGrid.getD 100 default = ⟨1, 0, 0, 0⟩ := by
  with_unfolding_all rfl

set_option maxRecDepth 4000 in
/-- Element 100 of the claim-order grid: temperature block 0, pressure
index 1, so the row (0, 1, 0, 0). -/
theorem specGrid_getD_100 : specGrid.getD 100 default = ⟨0, 1, 0, 0⟩ := by
  with_unfolding_all rfl

set_option maxRecDepth 4000 in
/-- The first 100 candidates of the code-order grid all have temperature
and pressure 0, so the tie prediction is 0 there. -/
theorem codeGrid_prefix_zero :
    ∀ j : Fin 100, tieF (codeGrid.getD j default) = 0 := by
  with_unfolding_all decide

set_option maxRecDepth 4000 in
/-- The first 100 candidates of the claim-order grid all have temperature
and pressure 0, so the tie prediction is 0 there. -/
theorem specGrid_prefix_zero :
    ∀ j : Fin 100, tieF (specGrid.getD j default) = 0 := by
  with_unfolding_all decide

/-- Value of the tie prediction at the row (1, 0, 0, 0). -/
theorem tieF_row_t : tieF ⟨1, 0, 0, 0⟩ = 1 := by
  with_unfolding_all decide

/-- Value of the tie prediction at the row (0, 1, 0, 0). -/
theorem tieF_row_p : tieF ⟨0, 1, 0, 0⟩ = 1 := by
  with_unfolding_all decide

/-- Index of the first maximum of the tie prediction over the code-order
grid: position 100, the row (1, 0, 0, 0). -/
theorem argmax_codeGrid : argmaxIdx (codeGrid.map tieF) = 100 := by
  apply argmaxIdx_eq_of
  · rw [List.length_map, codeGrid_length]
    norm_num
  · intro j hj
    rw [List.length_map, codeGrid_length] at hj
    rw [getD_map_at _ _ _ (by rw [codeGrid_length]; exact hj),
      getD_map_at _ _ _ (by rw [codeGrid_length]; norm_num),
      codeGrid_getD_100, tieF_row_t]
    exact tieF_le_one _
  · intro j hj
    rw [getD_map_at _ _ _ (by rw [codeGrid_length]; omega),
      getD_map_at _ _ _ (by rw [codeGrid_length]; norm_num),
      codeGrid_getD_100, tieF_row_t]
    have h0 := codeGrid_prefix_zero ⟨j, hj⟩
    simp only [Fin.val_mk] at h0
    rw [h0]
    norm_num

/-- Index of the first maximum of the tie prediction over the claim-order
grid: position 100, the row (0, 1, 0, 0). -/
theorem argmax_specGrid : argmaxIdx (specGrid.map tieF) = 100 := by
  apply argmaxIdx_eq_of
  · rw [List.length_map, specGrid_length]
    norm_num
  · intro j hj
    rw [List.length_map, specGrid_length] at hj
    rw [getD_map_at _ _ _ (by rw [specGrid_length]; exact hj),
      getD_map_at _ _ _ (by rw [specGrid_length]; norm_num),
      specGrid_getD_100, tieF_row_p]
    exact tieF_le_one _
  · intro j hj
    rw [getD_map_at _ _ _ (by rw [specGrid_length]; omega),
      getD_map_at _ _ _ (by rw [specGrid_length]; norm_num),
      specGrid_getD_100, tieF_row_p]
    have h0 := specGrid_prefix_zero ⟨j, hj⟩
    simp only [Fin.val_mk] at h0
    rw [h0]
    norm_num

/-- Claim C1 counterexample: with the tie model loaded and all four ranges
set to [0, 9], the rows (1, 0, 0, 0) and (0, 1, 0, 0) both attain the
maximal prediction 1 and both are evaluated grid candidates, yet `optimize`
returns (1, 0, 0, 0) while the first maximum in the enumeration order the
claim states (temperature outer-most, reactionTime inner-most) is the
distinct row (0, 1, 0, 0): the tie is NOT broken by the claimed order. -/
theorem optimize_tiebreak_order_counterexample :
    optimize tieStore (some unitRanges) = .ok (⟨1, 0, 0, 0⟩, 1) ∧
    specGrid.getD (argmaxIdx (specGrid.map tieF)) default = ⟨0, 1, 0, 0⟩ ∧
    tieF ⟨0, 1, 0, 0⟩ = 1 ∧ tieF ⟨1, 0, 0, 0⟩ = 1 ∧
    (⟨0, 1, 0, 0⟩ : FeatureVector) ∈ codeGrid ∧
    ((⟨1, 0, 0, 0⟩ : FeatureVector) ≠ ⟨0, 1, 0, 0⟩) := by
  refine ⟨?_, ?_, tieF_row_p, tieF_row_t, ?_, by with_unfolding_all decide⟩
  · have hfun : pipelinePredict tieModel idScaler = tieF := rfl
    have heq := optimize_eq tieStore tieModel idScaler rfl rfl rfl
      unitRanges (0, 9) (0, 9) (0, 9) (0, 9)
      (by decide) (by decide) (by decide) (by decide)
    rw [hfun] at heq
    rw [show optGrid (0, 9) (0, 9) (0, 9) (0, 9) = codeGrid from rfl] at heq
    rw [argmax_codeGrid, codeGrid_getD_100,
      getD_map_at _ _ _ (by rw [codeGrid_length]; norm_num),
      codeGrid_getD_100, tieF_row_t] at heq
    exact heq
  · rw [argmax_specGrid, specGrid_getD_100]
  · have h1 : (1 : ℚ) ∈ linspace 0 9 10 := by
      rw [mem_linspace]
      exact ⟨1, by norm_num, by norm_num⟩
    have h0 : (0 : ℚ) ∈ linspace 0 9 10 := by
      rw [mem_linspace]
      exact ⟨0, by norm_num, by norm_num⟩
    exact (mem_optGrid _ _ _ _ _).mpr ⟨h0, h1, h0, h0⟩

/-- Claim C4 (confirmed): when either artifact file of a model name is
missing, `load_model` returns the failure pair (None, None), and both
Predict and Optimize called before any training run (empty store) return
the distinguished model-not-found failure response (success false,
status 404). -/
theorem missing_model_behavior (st : Store) (name : String)
    (h : st.modelFile name = none ∨ st.scalerFile name = none) :
    load_model st name = (none, none) ∧
    (∀ fs : List ℚ, predict emptyStore (some fs)
      = .err 404 "Model not found. Please train the model first.") ∧
    (∀ rs : Ranges, optimize emptyStore (some rs)
      = .err 404 "Model not found. Please train the model first.") := by
  refine ⟨?_, fun fs => rfl, fun rs => rfl⟩
  unfold load_model
  rcases h with h | h <;> simp [h]

/-- Witness for C4: the empty store misses both artifacts, and the two
routes on a concrete request before any training return the 404
model-not-found response. -/
theorem missing_model_behavior_witness :
    load_model emptyStore "yield_model" = (none, none) ∧
    predict emptyStore (some [100, 5, 1, 12])
      = .err 404 "Model not found. Please train the model first." ∧
    optimize emptyStore (some unitRanges)
      = .err 404 "Model not found. Please train the model first." := by
  obtain ⟨h1, h2, h3⟩ :=
    missing_model_behavior emptyStore "yield_model" (Or.inl rfl)
  exact ⟨h1, h2 [100, 5, 1, 12], h3 unitRanges⟩

/-- Claim C10 (confirmed): `load_model` returns both artifacts or neither.
Either both files are present and it returns exactly their contents, or it
returns the (None, None) pair; it never returns a model without a scaler or
a scaler without a model. -/
theorem load_model_all_or_nothing (st : Store) (name : String) :
    ((load_model st name).1.isSome ↔ (load_model st name).2.isSome) ∧
    ((load_model st name = (st.modelFile name, st.scalerFile name) ∧
        (st.modelFile name).isSome = true ∧
        (st.scalerFile name).isSome = true) ∨
      load_model st name = (none, none)) := by
  unfold load_model
  by_cases h : (st.modelFile name).isSome ∧ (st.scalerFile name).isSome
  · rw [if_pos h]
    exact ⟨by simp [h.1, h.2], Or.inl ⟨rfl, h.1, h.2⟩⟩
  · rw [if_neg h]
    exact ⟨by simp, Or.inr rfl⟩

/-- Claim C9 (amended): the save performed by `train_model` is two separate
non-atomic file writes, model first, then scaler. A reader strictly before
or strictly after the save observes a complete pair written by one run, but
a reader landing between the two dumps observes the new model with the old
scaler. -/
theorem save_interleaving_observations (init : StoredFiles) (v : ℕ) :
    observeDuringSave init v 0 = init ∧
    observeDuringSave init v 1 = ⟨v, init.scalerVersion⟩ ∧
    observeDuringSave init v 2 = ⟨v, v⟩ :=
  ⟨rfl, rfl, rfl⟩

/-- Claim C9 counterexample: starting from the matched artifact pair of
training run 1, a concurrent reader whose load lands between the two dumps
of training run 2 observes the run-2 model paired with the run-1 scaler, a
mismatched pair from two different training runs. -/
theorem torn_read_between_dumps :
    matchedPair ⟨1, 1⟩ ∧
    observeDuringSave ⟨1, 1⟩ 2 1 = ⟨2, 1⟩ ∧
    ¬ matchedPair (observeDuringSave ⟨1, 1⟩ 2 1) :=
  ⟨rfl, rfl, by decide⟩

/-- Claim C7 (amended): training on fewer than 2 samples fails, but through
the generic catch-all (train_model returns None, surfaced by the route as
the generic 500 failure), with no distinguished InsufficientDataError; and
training on 2 or more samples whose target column is constant (no variance)
proceeds and returns a score instead of failing. -/
theorem train_model_failure_modes
    (fitScore : List FeatureVector → List ℚ → ℚ) :
    (∀ (X : List FeatureVector) (y : List ℚ), X.length < 2 →
      train_model fitScore X y = none) ∧
    (∀ (X : List FeatureVector) (y : List ℚ),
      train_model fitScore X y = none →
      trainRoute fitScore X y = .err 500 "训练失败") ∧
    (∀ (X : List FeatureVector) (y : List ℚ) (c : ℚ), 2 ≤ X.length →
      y.length = X.length → (∀ z ∈ y, z = c) →
      train_model fitScore X y = some (fitScore X y)) ∧
    (∀ (X : List FeatureVector) (y : List ℚ), X.length < 2 →
      trainRoute fitScore X y = .err 500 "训练失败") := by
  have hsmall : ∀ (X : List FeatureVector) (y : List ℚ), X.length < 2 →
      train_model fitScore X y = none := by
    intro X y h
    unfold train_model testCount
    by_cases h0 : X.length = 0
    · rw [if_pos h0]
    · rw [if_neg h0]
      by_cases h1 : y.length ≠ X.length
      · rw [if_pos h1]
      · rw [if_neg h1]
        rw [if_pos (by omega)]
  have hroute : ∀ (X : List FeatureVector) (y : List ℚ),
      train_model fitScore X y = none →
      trainRoute fitScore X y = .err 500 "训练失败" := by
    intro X y h
    unfold trainRoute
    rw [h]
  refine ⟨hsmall, hroute, ?_, ?_⟩
  · intro X y c h2 hy hconst
    unfold train_model testCount
    rw [if_neg (by omega), if_neg (by omega), if_neg (by omega)]
  · intro X y h
    exact hroute X y (hsmall X y h)

/-- Witness for C7: a 1-sample set fails generically, a 2-sample set with
the constant target 7 trains to a score. -/
theorem train_model_failure_modes_witness :
    train_model zeroFit [fv0] [5] = none ∧
    trainRoute zeroFit [fv0] [5] = .err 500 "训练失败" ∧
    train_model zeroFit [fv0, fv1] [7, 7] = some (zeroFit [fv0, fv1] [7, 7]) := by
  obtain ⟨h1, h2, h3, h4⟩ := train_model_failure_modes zeroFit
  exact ⟨h1 [fv0] [5] (by norm_num), h4 [fv0] [5] (by norm_num),
    h3 [fv0, fv1] [7, 7] 7 (by norm_num) (by norm_num) (by simp)⟩

/-- Claim C7 counterexample: a 2-sample training set with the constant
target column [7, 7] (no target variance) trains successfully and the route
reports success, instead of failing with an InsufficientDataError; and the
1-sample failure is the same generic 500 message every training failure
produces. -/
theorem train_degenerate_counterexample :
    train_model zeroFit [fv0, fv1] [7, 7] = some 0 ∧
    trainRoute zeroFit [fv0, fv1] [7, 7] = .ok 0 ∧
    trainRoute zeroFit [fv0] [5] = .err 500 "训练失败" :=
  ⟨rfl, rfl, rfl⟩

/-- Claim C5 (amended): with a trained artifact pair present (fitted scaler
expecting 4 features), predict on a vector without exactly 4 components
fails, but through the generic 500 response carrying the raw sklearn shape
ValueError message, exactly like any other unexpected exception — not
through a distinguished invalid-input response; on every 4-component vector
it proceeds to scale, regress and attach the loaded model's named feature
importances. -/
theorem predict_arity_behavior (st : Store) (model : RegressorModel)
    (scaler : FittedScaler)
    (hm : st.modelFile "yield_model" = some model)
    (hs : st.scalerFile "yield_model" = some scaler)
    (hn : scaler.nFeaturesIn = 4) :
    (∀ fs : List ℚ, fs.length ≠ 4 →
      predict st (some fs) = .err 500 (shapeErrMsg fs.length 4)) ∧
    (∀ fs : List ℚ, fs.length = 4 →
      predict st (some fs)
        = .ok (pipelinePredict model scaler (toFeatureVector fs),
            featureImportanceNamed model)) := by
  constructor
  · intro fs hlen
    unfold predict load_model
    rw [hm, hs]
    simp [hn, hlen]
  · intro fs hlen
    unfold predict load_model
    rw [hm, hs]
    simp [hn, hlen, pipelinePredict]

/-- Witness for C5: with the concrete trained store, a 3-component vector
gets the generic 500 shape-error response and a 4-component vector gets a
successful prediction. -/
theorem predict_arity_behavior_witness :
    predict readyStore (some [1, 2, 3]) = .err 500 (shapeErrMsg 3 4) ∧
    predict readyStore (some [100, 5, 1, 12])
      = .ok (0, featureImportanceNamed constModel) := by
  obtain ⟨h1, h2⟩ :=
    predict_arity_behavior readyStore constModel idScaler rfl rfl rfl
  exact ⟨h1 [1, 2, 3] (by norm_num), h2 [100, 5, 1, 12] rfl⟩

/-- Claim C5 counterexample: with a trained model present, the 3-component
vector [1, 2, 3] makes predict return the generic internal-failure response
(status 500, raw library message), the same response shape as any unhandled
exception, rather than a response distinguished as invalid input (the route
vocabulary has no invalid-input kind at all for this path). -/
theorem predict_three_features_counterexample :
    predict readyStore (some [1, 2, 3])
      = .err 500
          "X has 3 features, but StandardScaler is expecting 4 features as input." ∧
    (predict readyStore (some [1, 2, 3])).success = false := by
  constructor
  · with_unfolding_all rfl
  · with_unfolding_all rfl

/-- A list mapped to the constant 0 has argmax index 0. -/
theorem constmap_argmax_zero (l : List FeatureVector) (hne : l ≠ []) :
    argmaxIdx (l.map (fun _ => (0 : ℚ))) = 0 := by
  have hpos : 0 < l.length := by
    cases l
    · exact absurd rfl hne
    · simp
  apply argmaxIdx_eq_of
  · rw [List.length_map]
    exact hpos
  · intro j hj
    rw [List.length_map] at hj
    rw [getD_map_at _ _ _ hj, getD_map_at _ _ _ hpos]
  · intro j hj
    omega

/-- Claim C6 (amended): optimize performs no range validation at all. With
a trained model present, a request missing a required parameter key fails
with the generic 500 KeyError failure (not a distinguished invalid-input
response), and a request holding all four keys succeeds regardless of the
order of the bounds — in particular when a lower bound strictly exceeds its
upper bound. -/
theorem optimize_no_range_validation (st : Store) (model : RegressorModel)
    (scaler : FittedScaler)
    (hm : st.modelFile "yield_model" = some model)
    (hs : st.scalerFile "yield_model" = some scaler)
    (hn : scaler.nFeaturesIn = 4) :
    (∀ rs : Ranges,
      (List.lookup "温度" rs = none ∨ List.lookup "圧力" rs = none ∨
        List.lookup "触媒量" rs = none ∨ List.lookup "反応時間" rs = none) →
      optimize st (some rs) = .err 500 "KeyError") ∧
    (∀ (rs : Ranges) (tr pr cr rr : ℚ × ℚ),
      List.lookup "温度" rs = some tr → List.lookup "圧力" rs = some pr →
      List.lookup "触媒量" rs = some cr →
      List.lookup "反応時間" rs = some rr →
      (optimize st (some rs)).success = true) := by
  constructor
  · intro rs h
    unfold optimize load_model
    rw [hm, hs]
    rcases h with h | h | h | h
    · simp [h]
    · rcases e1 : List.lookup "温度" rs with _ | tr <;> simp [e1, h]
    · rcases e1 : List.lookup "温度" rs with _ | tr <;>
        rcases e2 : List.lookup "圧力" rs with _ | pr <;> simp [e1, e2, h]
    · rcases e1 : List.lookup "温度" rs with _ | tr <;>
        rcases e2 : List.lookup "圧力" rs with _ | pr <;>
        rcases e3 : List.lookup "触媒量" rs with _ | cr <;>
        simp [e1, e2, e3, h]
  · intro rs tr pr cr rr h1 h2 h3 h4
    rw [optimize_eq st model scaler hm hs hn rs tr pr cr rr h1 h2 h3 h4]
    rfl

/-- Witness for C6: the empty ranges object and the request holding only
the temperature key (so that a non-temperature required key is the missing
one) both get the generic KeyError failure; the complete [0, 9] ranges
succeed. -/
theorem optimize_no_range_validation_witness :
    optimize readyStore (some []) = .err 500 "KeyError" ∧
    optimize readyStore (some tempOnlyRanges) = .err 500 "KeyError" ∧
    (optimize readyStore (some unitRanges)).success = true := by
  obtain ⟨h1, h2⟩ :=
    optimize_no_range_validation readyStore constModel idScaler rfl rfl rfl
  exact ⟨h1 [] (Or.inl rfl),
    h1 tempOnlyRanges (Or.inr (Or.inl (by decide))),
    h2 unitRanges (0, 9) (0, 9) (0, 9) (0, 9)
      (by decide) (by decide) (by decide) (by decide)⟩

/-- Claim C6 counterexample: the request whose temperature range is [9, 0]
(lower bound 9 strictly above upper bound 0) makes optimize SUCCEED,
returning the first grid candidate with its prediction, instead of failing
with an InvalidInputError. -/
theorem optimize_inverted_range_counterexample :
    optimize readyStore (some invertedRanges) = .ok (⟨9, 0, 0, 0⟩, 0) ∧
    (optimize readyStore (some invertedRanges)).success = true ∧
    (0 : ℚ) < 9 := by
  have hfun : pipelinePredict constModel idScaler = fun _ => (0 : ℚ) := rfl
  have heq := optimize_eq readyStore constModel idScaler rfl rfl rfl
    invertedRanges (9, 0) (0, 0) (0, 0) (0, 0)
    (by decide) (by decide) (by decide) (by decide)
  rw [hfun] at heq
  rw [constmap_argmax_zero _ (optGrid_ne_nil _ _ _ _)] at heq
  rw [getD_map_at _ _ _ (by rw [optGrid_length]; norm_num)] at heq
  have h0 : (optGrid (9, 0) (0, 0) (0, 0) (0, 0)).getD 0 default
      = ⟨9, 0, 0, 0⟩ := by
    with_unfolding_all rfl
  rw [h0] at heq
  exact ⟨heq, by rw [heq]; rfl, by norm_num⟩

/-- The generation-time yield formula equals the form the spec states,
`clip(100 * (weighted sum) / 100, 0, 100)`. -/
theorem sampleYield_claim_form (fv : FeatureVector) :
    sampleYield fv
      = clip (100 * (0.4 * fv.temperature + 0.3 * fv.pressure ^ 2
          + 0.2 * fv.catalystAmount + 0.1 * fv.reactionTime) / 100) 0 100 := by
  unfold sampleYield
  congr 1
  ring

/-- Claim C3 (confirmed): the sample generator is a pure deterministic
function of the seeded random stream (hence two calls with the same seed
yield identical training sets); it produces 100 samples, sample i being the
affine image of the 4 uniform [0, 1) draws of row i — temperature in
[50, 150], pressure in [1, 10], catalystAmount in [0.1, 2.0], reactionTime
in [1, 24] — with yield clip(100 * (0.4 t + 0.3 p^2 + 0.2 c + 0.1 r) / 100,
0, 100). -/
theorem generate_sample_data_spec (u v : ℕ → Fin 4 → ℚ)
    (hu : ∀ (i : ℕ) (j : Fin 4), 0 ≤ u i j ∧ u i j < 1) :
    ((∀ i, i < 100 → u i = v i) →
      generate_sample_data u = generate_sample_data v) ∧
    (generate_sample_data u).length = 100 ∧
    (∀ i, i < 100 →
      (generate_sample_data u).getD i default
        = (sampleFeatures (u i),
            clip (100 * (0.4 * (sampleFeatures (u i)).temperature
              + 0.3 * (sampleFeatures (u i)).pressure ^ 2
              + 0.2 * (sampleFeatures (u i)).catalystAmount
              + 0.1 * (sampleFeatures (u i)).reactionTime) / 100) 0 100) ∧
      sampleFeatures (u i)
        = ⟨u i 0 * 100 + 50, u i 1 * 9 + 1, u i 2 * 1.9 + 0.1,
            u i 3 * 23 + 1⟩ ∧
      50 ≤ (sampleFeatures (u i)).temperature ∧
      (sampleFeatures (u i)).temperature ≤ 150 ∧
      1 ≤ (sampleFeatures (u i)).pressure ∧
      (sampleFeatures (u i)).pressure ≤ 10 ∧
      0.1 ≤ (sampleFeatures (u i)).catalystAmount ∧
      (sampleFeatures (u i)).catalystAmount ≤ 2 ∧
      1 ≤ (sampleFeatures (u i)).reactionTime ∧
      (sampleFeatures (u i)).reactionTime ≤ 24) := by
  refine ⟨?_, ?_, ?_⟩
  · intro h
    unfold generate_sample_data
    apply List.map_congr_left
    intro a ha
    rw [List.mem_range] at ha
    rw [h a ha]
  · unfold generate_sample_data
    rw [List.length_map, List.length_range]
  · intro i hi
    have hget : (generate_sample_data u).getD i default
        = (sampleFeatures (u i), sampleYield (sampleFeatures (u i))) := by
      rw [List.getD_eq_getElem _ _ (by
        unfold generate_sample_data
        rw [List.length_map, List.length_range]
        exact hi)]
      unfold generate_sample_data
      rw [List.getElem_map, List.getElem_range]
    obtain ⟨h0a, h0b⟩ := hu i 0
    obtain ⟨h1a, h1b⟩ := hu i 1
    obtain ⟨h2a, h2b⟩ := hu i 2
    obtain ⟨h3a, h3b⟩ := hu i 3
    refine ⟨by rw [hget, sampleYield_claim_form], rfl, ?_, ?_, ?_, ?_, ?_, ?_,
      ?_, ?_⟩
    all_goals simp only [sampleFeatures]
    · linarith
    · linarith
    · linarith
    · linarith
    · linarith
    · linarith
    · linarith
    · linarith

/-- Witness for C3: the theorem instantiated at the constant one-half
stream. -/
theorem generate_sample_data_spec_witness :
    ((∀ i, i < 100 → halfStream i = halfStream i) →
      generate_sample_data halfStream = generate_sample_data halfStream) ∧
    (generate_sample_data halfStream).length = 100 ∧
    (∀ i, i < 100 →
      (generate_sample_data halfStream).getD i default
        = (sampleFeatures (halfStream i),
            clip (100 * (0.4 * (sampleFeatures (halfStream i)).temperature
              + 0.3 * (sampleFeatures (halfStream i)).pressure ^ 2
              + 0.2 * (sampleFeatures (halfStream i)).catalystAmount
              + 0.1 * (sampleFeatures (halfStream i)).reactionTime) / 100)
              0 100) ∧
      sampleFeatures (halfStream i)
        = ⟨halfStream i 0 * 100 + 50, halfStream i 1 * 9 + 1,
            halfStream i 2 * 1.9 + 0.1, halfStream i 3 * 23 + 1⟩ ∧
      50 ≤ (sampleFeatures (halfStream i)).temperature ∧
      (sampleFeatures (halfStream i)).temperature ≤ 150 ∧
      1 ≤ (sampleFeatures (halfStream i)).pressure ∧
      (sampleFeatures (halfStream i)).pressure ≤ 10 ∧
      0.1 ≤ (sampleFeatures (halfStream i)).catalystAmount ∧
      (sampleFeatures (halfStream i)).catalystAmount ≤ 2 ∧
      1 ≤ (sampleFeatures (halfStream i)).reactionTime ∧
      (sampleFeatures (halfStream i)).reactionTime ≤ 24) :=
  generate_sample_data_spec halfStream halfStream
    (fun _ _ => ⟨by norm_num [halfStream], by norm_num [halfStream]⟩)

/-- Mean of a constant nonempty column is the constant. -/
theorem colMean_const (xs : List ℚ) (c : ℚ) (hne : xs ≠ [])
    (h : ∀ z ∈ xs, z = c) : colMean xs = c := by
  unfold colMean
  rw [List.sum_eq_card_nsmul xs c h, nsmul_eq_mul]
  have hlen : (xs.length : ℚ) ≠ 0 := by
    have : xs.length ≠ 0 := by
      cases xs
      · exact absurd rfl hne
      · simp
    exact_mod_cast this
  field_simp

/-- Variance of a constant nonempty column is zero. -/
theorem colVar_const (xs : List ℚ) (c : ℚ) (hne : xs ≠ [])
    (h : ∀ z ∈ xs, z = c) : colVar xs = 0 := by
  unfold colVar
  rw [List.sum_eq_zero, zero_div]
  intro z hz
  rw [List.mem_map] at hz
  obtain ⟨x, hx, rfl⟩ := hz
  rw [h x hx, colMean_const xs c hne h]
  ring

/-- Claim C8 (amended): for every fit set in which some feature column is
constant, the fitted column has variance and standard deviation 0; sklearn
replaces the zero scale by 1 (so transform never divides by zero, hence
never produces NaN or Inf), and transform of that feature returns
x - mean — which is 0 exactly for inputs whose component equals the
constant fit value, not for every input. -/
theorem scaler_zero_variance_behavior (rows : List FeatureVector)
    (sel : FeatureVector → ℚ) (c : ℚ) (hne : rows ≠ [])
    (hconst : ∀ fv ∈ rows, sel fv = c) :
    colMean (columnOf rows sel) = c ∧
    colVar (columnOf rows sel) = 0 ∧
    Real.sqrt (colVar (columnOf rows sel)) = 0 ∧
    columnScale (columnOf rows sel) = 1 ∧
    (∀ x : ℚ, transformColumn (columnOf rows sel) x = (x : ℝ) - (c : ℝ)) ∧
    transformColumn (columnOf rows sel) c = 0 := by
  have hcol : ∀ z ∈ columnOf rows sel, z = c := by
    intro z hz
    rw [columnOf, List.mem_map] at hz
    obtain ⟨fv, hfv, rfl⟩ := hz
    exact hconst fv hfv
  have hcne : columnOf rows sel ≠ [] := by
    unfold columnOf
    cases rows
    · exact absurd rfl hne
    · simp
  have hmean := colMean_const _ c hcne hcol
  have hvar := colVar_const _ c hcne hcol
  have hsqrt : Real.sqrt (colVar (columnOf rows sel)) = 0 := by
    rw [hvar]
    push_cast
    exact Real.sqrt_zero
  have hscale : columnScale (columnOf rows sel) = 1 := by
    unfold columnScale handleZerosInScale
    rw [if_pos hsqrt]
  have htrans : ∀ x : ℚ,
      transformColumn (columnOf rows sel) x = (x : ℝ) - (c : ℝ) := by
    intro x
    unfold transformColumn
    rw [hscale, hmean, div_one]
  refine ⟨hmean, hvar, hsqrt, hscale, htrans, ?_⟩
  rw [htrans c, sub_self]

/-- Witness for C8: the theorem instantiated at the concrete fit set whose
temperature column is constantly 5. -/
theorem scaler_zero_variance_behavior_witness :
    colMean (columnOf constTempRows FeatureVector.temperature) = 5 ∧
    colVar (columnOf constTempRows FeatureVector.temperature) = 0 ∧
    Real.sqrt (colVar (columnOf constTempRows FeatureVector.temperature))
      = 0 ∧
    columnScale (columnOf constTempRows FeatureVector.temperature) = 1 ∧
    (∀ x : ℚ,
      transformColumn (columnOf constTempRows FeatureVector.temperature) x
        = (x : ℝ) - ((5 : ℚ) : ℝ)) ∧
    transformColumn (columnOf constTempRows FeatureVector.temperature) 5
      = 0 :=
  scaler_zero_variance_behavior constTempRows FeatureVector.temperature 5
    (by simp [constTempRows])
    (by
      intro fv hfv
      rcases List.mem_cons.mp hfv with h | h
      · rw [h]
      · rw [List.mem_singleton.mp h])

/-- Claim C8 counterexample: for the fit column [5, 5] (zero variance), the
transform of the out-of-sample input 7 is 2, not 0: sklearn replaces the
zero scale by 1 and transform returns x - mean, so transform is NOT 0 for
every input vector at a zero-variance feature. -/
theorem transform_zero_variance_counterexample :
    colVar [5, 5] = 0 ∧
    transformColumn [5, 5] 7 = 2 ∧
    (2 : ℝ) ≠ 0 := by
  have hconst : ∀ z ∈ ([5, 5] : List ℚ), z = 5 := by
    intro z hz
    rcases List.mem_cons.mp hz with h | h
    · exact h
    · exact List.mem_singleton.mp h
  have hmean := colMean_const [5, 5] 5 (by simp) hconst
  have hvar := colVar_const [5, 5] 5 (by simp) hconst
  have hsqrt : Real.sqrt (colVar [5, 5]) = 0 := by
    rw [hvar]
    push_cast
    exact Real.sqrt_zero
  have hscale : columnScale [5, 5] = 1 := by
    unfold columnScale handleZerosInScale
    rw [if_pos hsqrt]
  refine ⟨hvar, ?_, by norm_num⟩
  unfold transformColumn
  rw [hscale, hmean, div_one]
  norm_num

end MLService
